import Mathlib

/-!
Shallow embedding of the archie AI backend gateway (FastAPI, Python):
- `app/auth.py`        : JWT verification (`verify_jwt`)
- `app/routers/speech.py` : speech-to-text transcription (`transcribe_audio`,
  `get_supported_formats`)
- `app/routers/tts.py` : text-to-speech synthesis (`synthesize_text`)
- `app/routers/ai_summary.py` / `app/models.py` : summary generation
  (`generate_summary`, `AISummaryRequest`)

Each route handler is embedded as a pure function.  The network call to the
external provider is abstracted as an explicit function/outcome parameter
(the handler's behaviour on each possible provider outcome is taken verbatim
from the source); wall-clock elapsed milliseconds, produced in the source by
`int((time.time() - start_time) * 1000)` with a monotone clock, is passed in
as a natural number.  Raised `HTTPException`s become `Except.error` values.
-/

namespace Archie

/-- An HTTP error response raised by the gateway via
`raise HTTPException(status_code=..., detail=...)`. -/
structure HTTPException where
  status_code : Nat
  detail : String
deriving Repr, DecidableEq

/-- Whether `pat` is an initial segment of `l`. -/
def list_starts (pat l : List Char) : Bool :=
  match pat, l with
  | [], _ => true
  | _ :: _, [] => false
  | p :: ps, c :: cs => p = c && list_starts ps cs

/-- Whether `pat` occurs contiguously somewhere in `l`. -/
def list_has (pat l : List Char) : Bool :=
  list_starts pat l ||
    match l with
    | [] => false
    | _ :: cs => list_has pat cs

/-- Models Python's substring containment `pat in s`. -/
def str_contains (s pat : String) : Bool :=
  list_has pat.data s.data

/-- Models Python's `str.lower()` for the ASCII error messages being
classified: lower-case each character. -/
def py_lower (s : String) : String :=
  ⟨s.data.map Char.toLower⟩

/-- Models Python's `str.strip()` with no argument: remove whitespace from
both ends of the string. -/
def py_strip (s : String) : String :=
  ⟨((s.data.dropWhile Char.isWhitespace).reverse.dropWhile Char.isWhitespace).reverse⟩

/-! ## app/auth.py -/

/-- The claim set of a decoded JWT payload as `verify_jwt` reads it:
`payload.get("sub")` and `payload.get("email")`.  A claim that is absent is
`none`; Python's falsiness check `if not user_id` also treats `some ""` as
missing. -/
structure Claims where
  sub : Option String
  email : Option String
deriving Repr, DecidableEq

/-- Outcome of `jwt.decode(token, jwt_secret, algorithms=["HS256"],
audience="authenticated")`: a verified payload, or one of the exceptions the
`pyjwt` library raises (expired signature, any other invalid token, or an
unexpected error). -/
inductive JwtDecode where
  | ok (payload : Claims)
  | expiredSignatureError
  | invalidTokenError
  | unexpectedError
deriving Repr, DecidableEq

/-- Python falsiness of the module-level `os.getenv("SUPABASE_JWT_SECRET")`
value: `if not jwt_secret` is true when the variable is unset or empty. -/
def secret_missing : Option String → Bool
  | none => true
  | some s => s = ""

/-- Python falsiness of `payload.get("sub")`: `if not user_id` is true when
the claim is absent or the empty string. -/
def sub_missing : Option String → Bool
  | none => true
  | some s => s = ""

/-- A Python exception escaping the `try:` block of `verify_jwt`.
`fastapi.HTTPException` is a subclass of `Exception`, so the
`HTTPException(401, "Invalid token payload")` raised inside the `try:` block
is itself one of the values a handler clause can catch. -/
inductive PyFailure where
  | httpExc (e : HTTPException)
  | expiredSignatureError
  | invalidTokenError
  | otherException
deriving Repr, DecidableEq

/-- The `try:` block of `verify_jwt` (auth.py lines 43-81): decode the token,
then `if not user_id: raise HTTPException(401, "Invalid token payload")`,
otherwise return the payload. -/
def verify_try_body (decode : String → JwtDecode) (token : String) :
    Except PyFailure Claims :=
  match decode token with
  | .expiredSignatureError => .error .expiredSignatureError
  | .invalidTokenError => .error .invalidTokenError
  | .unexpectedError => .error .otherException
  | .ok payload =>
    if sub_missing payload.sub then
      .error (.httpExc ⟨401, "Invalid token payload"⟩)
    else
      .ok payload

/-- `verify_jwt` (auth.py lines 16-110).  The `except` clauses are matched in
source order: `jwt.ExpiredSignatureError`, `jwt.InvalidTokenError`, then the
bare `except Exception`.  There is no `except HTTPException: raise` clause, so
the `HTTPException(401, "Invalid token payload")` raised inside the `try:`
block for a missing subject claim is caught by `except Exception` and replaced
by the 500 "Authentication verification failed" response. -/
def verify_jwt (jwt_secret : Option String) (decode : String → JwtDecode)
    (credential : String) : Except HTTPException Claims :=
  if secret_missing jwt_secret then
    .error ⟨500, "Authentication configuration error"⟩
  else
    let token := if credential.startsWith "Bearer " then credential.drop 7
      else credential
    match verify_try_body decode token with
    | .ok payload => .ok payload
    | .error .expiredSignatureError => .error ⟨401, "Token has expired"⟩
    | .error .invalidTokenError => .error ⟨401, "Invalid token"⟩
    | .error (.httpExc _) => .error ⟨500, "Authentication verification failed"⟩
    | .error .otherException => .error ⟨500, "Authentication verification failed"⟩

/-! ## app/routers/speech.py -/

/-- `allowed_types` (speech.py lines 64-72): content types accepted by
transcription validation. -/
def allowed_types : List String :=
  ["audio/wav", "audio/wave", "audio/x-wav",
   "audio/mpeg", "audio/mp3",
   "audio/flac",
   "audio/ogg",
   "audio/webm",
   "audio/m4a",
   "audio/x-m4a"]

/-- `max_file_size = 1024 * 1024 * 1024` (speech.py line 92). -/
def max_file_size : Nat := 1024 * 1024 * 1024

/-- `lang_map` (speech.py lines 123-134): caller-facing language tag to
ISO-639-3 provider code. -/
def lang_map : List (String × String) :=
  [("en-US", "eng"),
   ("en", "eng"),
   ("es", "spa"),
   ("fr", "fra"),
   ("de", "deu"),
   ("it", "ita"),
   ("pt", "por"),
   ("ja", "jpn"),
   ("ko", "kor"),
   ("zh", "cmn")]

/-- `eleven_lang = lang_map.get(language_code, 'eng')` (speech.py line 135). -/
def eleven_lang (language_code : String) : String :=
  (lang_map.lookup language_code).getD "eng"

/-- Outcome of the `httpx` POST to the ElevenLabs speech-to-text endpoint:
either an HTTP response (carrying `response.status_code`, the raw
`response.text` body, and — for the parsed JSON — the optional `text` and
`language_probability` fields read via `response_data.get`), or a raised
transport exception with message `str(e)`. -/
inductive STTOutcome where
  | response (status_code : Nat) (body : String)
      (text : Option String) (language_probability : Option ℚ)
  | exc (msg : String)

/-- `SpeechToTextResponse` (models.py lines 24-28). -/
structure SpeechToTextResponse where
  transcript : String
  confidence : ℚ
  processing_time_ms : Nat
deriving Repr, DecidableEq

/-- Detail string of the unsupported-format 400 (speech.py lines 80-84). -/
def unsupported_format_detail (content_type : String) : String :=
  "Unsupported audio format: " ++ content_type ++ ". Supported formats: " ++
    String.intercalate ", " allowed_types

/-- Detail string of the file-too-large 400 (speech.py lines 99-102). -/
def file_too_large_detail : String :=
  "Audio file too large. Maximum size: " ++
    toString (max_file_size / (1024 * 1024 * 1024)) ++ "GB"

/-- Detail string of the empty-file 400 (speech.py lines 110-113). -/
def empty_file_detail : String :=
  "Empty audio file. Please upload a valid audio recording."

/-- Detail string of the no-speech 400 (speech.py lines 232-235). -/
def no_speech_detail : String :=
  "No speech detected in audio file. Please ensure the audio is clear and contains speech."

/-- Classification of a non-200 provider response by its numeric status code
(speech.py lines 190-210): 401 becomes 503, 400 is echoed as 400 with the
body appended, 429 becomes 429, anything else becomes 500. -/
def classify_stt_status (status_code : Nat) (error_text : String) : HTTPException :=
  if status_code = 401 then
    ⟨503, "ElevenLabs API authentication failed. Please contact support."⟩
  else if status_code = 400 then
    ⟨400, "Invalid audio file or request: " ++ error_text⟩
  else if status_code = 429 then
    ⟨429, "Rate limit exceeded. Please try again later."⟩
  else
    ⟨500, "ElevenLabs API error: " ++ toString status_code⟩

/-- Classification of a transport exception by substrings of
`str(e).lower()` (speech.py lines 268-284). -/
def classify_stt_exception (msg : String) : HTTPException :=
  let error_message := py_lower msg
  if str_contains error_message "timeout" then
    ⟨408, "Transcription request timed out. Please try with a shorter audio file."⟩
  else if str_contains error_message "connection" || str_contains error_message "network" then
    ⟨503, "Unable to connect to transcription service. Please try again later."⟩
  else
    ⟨500, "An unexpected error occurred during transcription. Please try again."⟩

/-- `transcribe_audio` (speech.py lines 26-284) as a pure function.
`provider_call` abstracts the `httpx` POST and is applied to the
`eleven_lang` code that the handler sends; `processing_time` is the measured
elapsed milliseconds.  `HTTPException`s raised inside the `try:` block
propagate unchanged through `except HTTPException: raise`; the remaining
`except Exception` clause is `classify_stt_exception`. -/
def transcribe_audio (content_type : String) (audio_content : List Nat)
    (language_code : String) (provider_call : String → STTOutcome)
    (processing_time : Nat) : Except HTTPException SpeechToTextResponse :=
  if content_type ∉ allowed_types then
    .error ⟨400, unsupported_format_detail content_type⟩
  else
    let file_size := audio_content.length
    if file_size > max_file_size then
      .error ⟨400, file_too_large_detail⟩
    else if file_size = 0 then
      .error ⟨400, empty_file_detail⟩
    else
      match provider_call (eleven_lang language_code) with
      | .exc msg => .error (classify_stt_exception msg)
      | .response status_code body text language_probability =>
        if status_code ≠ 200 then
          .error (classify_stt_status status_code body)
        else
          let transcript := text.getD ""
          let confidence := language_probability.getD (9 / 10 : ℚ)
          if transcript = "" ∨ py_strip transcript = "" then
            .error ⟨400, no_speech_detail⟩
          else
            .ok ⟨py_strip transcript, confidence, processing_time⟩

/-- `supported_formats` list returned by `get_supported_formats`
(speech.py lines 303-312). -/
def supported_formats : List String :=
  ["audio/wav", "audio/wave", "audio/x-wav",
   "audio/mpeg", "audio/mp3",
   "audio/flac",
   "audio/ogg",
   "audio/webm",
   "audio/m4a",
   "audio/x-m4a"]

/-! ## app/routers/tts.py -/

/-- `TTSRequest` (tts.py lines 23-26); `voice_id` defaults to
"JBFqnCBsd6RMkjVDRZzb" when the caller omits it. -/
structure TTSRequest where
  text : String
  voice_id : String
deriving Repr, DecidableEq

/-- `TTSResponse` (tts.py lines 29-33). -/
structure TTSResponse where
  audio_base64 : String
  processing_time_ms : Nat
  voice_id : String
deriving Repr, DecidableEq

/-- Outcome of `eleven.text_to_speech.convert(...)`: the returned audio data,
or a raised exception with message `str(e)`. -/
inductive TTSOutcome where
  | ok (audio_data : String)
  | exc (msg : String)

/-- `max_text_length = 5000` (tts.py line 69). -/
def max_text_length : Nat := 5000

/-- Classification of a synthesis exception by substrings of
`str(e).lower()` (tts.py lines 130-151).  No numeric provider HTTP status is
available on this path: the SDK call surfaces failures only as exceptions. -/
def classify_tts_exception (voice_id msg : String) : HTTPException :=
  let error_message := py_lower msg
  if str_contains error_message "quota" || str_contains error_message "limit" ||
      str_contains error_message "rate" then
    ⟨429, "TTS service temporarily unavailable. Please try again later."⟩
  else if str_contains error_message "unauthorized" || str_contains error_message "api key" then
    ⟨503, "TTS service configuration error. Please contact support."⟩
  else if str_contains error_message "voice" &&
      (str_contains error_message "not found" || str_contains error_message "invalid") then
    ⟨400, "Invalid voice ID: " ++ voice_id ++ ". Please use a valid voice."⟩
  else
    ⟨500, "TTS generation failed. Please try again."⟩

/-- `synthesize_text` (tts.py lines 36-151) as a pure function over the
request, the provider outcome, and the measured elapsed milliseconds. -/
def synthesize_text (request : TTSRequest) (outcome : TTSOutcome)
    (processing_time : Nat) : Except HTTPException TTSResponse :=
  if request.text.length > max_text_length then
    .error ⟨400, "Text too long. Maximum length: " ++ toString max_text_length ++ " characters"⟩
  else if py_strip request.text = "" then
    .error ⟨400, "Text cannot be empty"⟩
  else
    match outcome with
    | .ok audio_data => .ok ⟨audio_data, processing_time, request.voice_id⟩
    | .exc msg => .error (classify_tts_exception request.voice_id msg)

/-! ## app/models.py and app/routers/ai_summary.py -/

/-- `AISummaryRequest` (models.py lines 31-36).  `transformation_count` is
declared `int = Field(default=0, description=...)`. -/
structure AISummaryRequest where
  original_text : String
  reframed_text : Option String
  transformation_count : Int
  user_principles : Option (List String)
deriving Repr, DecidableEq

/-- `AISummaryResponse` (models.py lines 39-43). -/
structure AISummaryResponse where
  summary : String
  tone : String
  processing_time_ms : Nat
deriving Repr, DecidableEq

/-- Value-level validation performed by the `AISummaryRequest` pydantic model
(models.py lines 31-36): every field is declared with a bare type and carries
no value constraint (`Field` is given only a default and a description), so
every well-typed request is accepted. -/
def ai_summary_request_accepted (_ : AISummaryRequest) : Bool := true

/-- `transformations_made` clause (ai_summary.py lines 67-69): Python's
`if request.transformation_count and request.transformation_count > 0`
requires the count to be truthy (nonzero) and positive. -/
def transformations_made (r : AISummaryRequest) : String :=
  if r.transformation_count ≠ 0 ∧ 0 < r.transformation_count then
    "\n\nThe user made " ++ toString r.transformation_count ++
      " language transformation(s) during this session."
  else ""

/-- `principles_context` clause (ai_summary.py lines 71-73): Python's
`if request.user_principles and len(request.user_principles) > 0` requires
the list to be present, truthy (non-empty) and of positive length. -/
def principles_context (r : AISummaryRequest) : String :=
  match r.user_principles with
  | none => ""
  | some l =>
    if l ≠ [] ∧ 0 < l.length then
      "\n\nUser\x27s core principles: " ++ String.intercalate ", " l
    else ""

/-- Fixed prompt text preceding the quoted original thoughts
(ai_summary.py lines 78-82). -/
def prompt_header : String :=
  "You are The Architect\x27s AI Guide - a wise, encouraging mentor who helps people transform their language to reshape their reality.\n\nA user just completed a reframing session where they examined their internal dialogue and consciously chose more empowering language.\n\nORIGINAL THOUGHTS:\n\""

/-- Fixed prompt text between the quoted original and reframed thoughts
(ai_summary.py lines 82-86). -/
def prompt_mid : String :=
  "\"\n\nREFRAMED THOUGHTS:\n\""

/-- Fixed prompt text after the optional clauses (ai_summary.py lines 86-94). -/
def prompt_tail : String :=
  "\n\nYour role is to provide a personalized, insightful reflection (2-3 sentences) that:\n1. Acknowledges their specific journey and growth\n2. Highlights the power of their conscious language choices\n3. Encourages continued practice of self-authorship\n4. Connects their work to larger themes of personal empowerment\n\nBe warm, wise, and specific to their actual experience. Focus on the mindset shift they\x27re creating, not just generic encouragement."

/-- `request.reframed_text or request.original_text` (ai_summary.py line 86):
Python's `or` falls back when the left side is `None` or the empty string. -/
def reframed_or_original (r : AISummaryRequest) : String :=
  match r.reframed_text with
  | none => r.original_text
  | some s => if s = "" then r.original_text else s

/-- The prompt f-string of `generate_summary` (ai_summary.py lines 78-94). -/
def summary_prompt (r : AISummaryRequest) : String :=
  prompt_header ++ r.original_text ++ prompt_mid ++ reframed_or_original r ++ "\"" ++
    transformations_made r ++ principles_context r ++ prompt_tail

/-- The prompt as the spec describes it for a request with no transformations
and no principles: both optional clauses omitted entirely, leaving only the
fixed text around the quoted original and reframed thoughts. -/
def summary_prompt_no_optional_clauses (r : AISummaryRequest) : String :=
  prompt_header ++ r.original_text ++ prompt_mid ++ reframed_or_original r ++ "\"" ++
    prompt_tail

/-- Outcome of `model.generate_content(prompt)`: a response whose `.text` is
the given string, or a raised exception. -/
inductive GeminiOutcome where
  | ok (text : String)
  | exc

/-- `generate_summary` (ai_summary.py lines 42-133) as a pure function.
`model_available` is whether the module-level Gemini `model` is not `None`;
`generate_content` abstracts the provider call and is applied to the prompt
the handler builds; `processing_time` is the measured elapsed milliseconds. -/
def generate_summary (model_available : Bool) (r : AISummaryRequest)
    (generate_content : String → GeminiOutcome) (processing_time : Nat) :
    Except HTTPException AISummaryResponse :=
  if !model_available then
    .error ⟨503, "AI service unavailable"⟩
  else
    match generate_content (summary_prompt r) with
    | .ok text => .ok ⟨py_strip text, "encouraging", processing_time⟩
    | .exc => .error ⟨500, "Summary generation failed"⟩

/-! ## Helper instances and concrete collaborators used by witnesses -/

deriving instance DecidableEq for Except

set_option maxRecDepth 8192

/-- A jwt decode outcome that ignores the token, for concrete instantiation. -/
def decode_const (d : JwtDecode) : String → JwtDecode := fun _ => d

/-- A speech provider that returns the same outcome for every language code,
for concrete instantiation. -/
def stt_const (o : STTOutcome) : String → STTOutcome := fun _ => o

/-- A generative provider that returns the same outcome for every prompt,
for concrete instantiation. -/
def gemini_const (o : GeminiOutcome) : String → GeminiOutcome := fun _ => o

/-! ## Theorems -/

/-- C10: the `supported_formats` list returned by GET /speech/formats is
exactly the content-type allow-list enforced by transcription validation. -/
theorem supported_formats_eq_allowed_types : supported_formats = allowed_types := rfl

/-- C4: whenever the signing secret configuration is absent (unset or empty
environment variable), `verify_jwt` fails with the 500 configuration error —
never with a 401 — for every credential and every decode outcome. -/
theorem missing_secret_is_server_error (jwt_secret : Option String)
    (decode : String → JwtDecode) (credential : String)
    (h : jwt_secret = none ∨ jwt_secret = some "") :
    verify_jwt jwt_secret decode credential =
      .error ⟨500, "Authentication configuration error"⟩ ∧
    ∀ e, verify_jwt jwt_secret decode credential = .error e → e.status_code ≠ 401 := by
  have h1 : verify_jwt jwt_secret decode credential =
      .error ⟨500, "Authentication configuration error"⟩ := by
    rcases h with h | h <;> subst h <;> rfl
  refine ⟨h1, fun e he => ?_⟩
  rw [h1] at he
  injection he with he
  rw [← he]
  decide

/-- C4 witness: with the secret unset, a request with a decodable credential
still gets the 500 configuration error. -/
theorem missing_secret_is_server_error_witness :
    verify_jwt none (decode_const (.ok ⟨some "user-1", none⟩)) "Bearer tok" =
      .error ⟨500, "Authentication configuration error"⟩ :=
  (missing_secret_is_server_error none (decode_const (.ok ⟨some "user-1", none⟩))
    "Bearer tok" (Or.inl rfl)).1

/-- C3: evaluation of `verify_jwt` at a validly signed credential whose claim
set lacks a subject: the 401 "Invalid token payload" raised inside the `try:`
block is caught by the bare `except Exception` clause (auth.py line 102) and
the caller receives a 500, not the 401 the claim requires. -/
theorem missing_sub_yields_500_not_401 :
    verify_jwt (some "secret") (decode_const (.ok ⟨none, none⟩)) "token-without-sub" =
      .error ⟨500, "Authentication verification failed"⟩ ∧
    verify_jwt (some "secret") (decode_const .expiredSignatureError) "token-expired" =
      .error ⟨401, "Token has expired"⟩ ∧
    verify_jwt (some "secret") (decode_const .invalidTokenError) "token-bad-sig" =
      .error ⟨401, "Invalid token"⟩ := by
  refine ⟨?_, ?_, ?_⟩ <;> decide

/-- C1: once transcription validation has passed and the provider returned an
HTTP response, every non-200 response is classified by its numeric status code
alone (`classify_stt_status`) — the exception-message substring classifier is
never consulted — and a 429 yields the 429 rate-limit error whatever the
response body contains. -/
theorem provider_status_takes_precedence (ct : String) (ac : List Nat)
    (lc : String) (f : String → STTOutcome) (p s : Nat) (body : String)
    (text : Option String) (prob : Option ℚ)
    (hct : ct ∈ allowed_types) (hsz : ac.length ≤ max_file_size)
    (hne : ac.length ≠ 0)
    (hf : f (eleven_lang lc) = STTOutcome.response s body text prob)
    (hs : s ≠ 200) :
    transcribe_audio ct ac lc f p = .error (classify_stt_status s body) ∧
    (s = 429 →
      transcribe_audio ct ac lc f p =
        .error ⟨429, "Rate limit exceeded. Please try again later."⟩) := by
  have hmax : ¬ (ac.length > max_file_size) := by omega
  have h1 : transcribe_audio ct ac lc f p = .error (classify_stt_status s body) := by
    simp only [transcribe_audio, hf]
    rw [if_neg (not_not_intro hct), if_neg hmax, if_neg hne, if_pos hs]
  refine ⟨h1, fun h429 => ?_⟩
  subst h429
  rw [h1]
  rfl

/-- C1 witness: a 429 response whose body mentions "invalid" is still
classified by its status code as the 429 rate-limit error. -/
theorem provider_status_takes_precedence_witness :
    transcribe_audio "audio/wav" [0] "en-US"
      (stt_const (.response 429 "invalid request data" none none)) 7 =
      .error ⟨429, "Rate limit exceeded. Please try again later."⟩ :=
  (provider_status_takes_precedence "audio/wav" [0] "en-US"
    (stt_const (.response 429 "invalid request data" none none)) 7 429
    "invalid request data" none none (by decide) (by decide) (by decide) rfl
    (by decide)).2 rfl

/-- C2: a transcription request with a content type outside the allow-list,
an oversized payload, or an empty payload fails with the 400 error naming
that constraint, and the result does not depend on the provider (no network
call is needed to produce it). -/
theorem transcription_validation_fails_fast (ct : String) (ac : List Nat)
    (lc : String) (f g : String → STTOutcome) (p q : Nat) :
    (ct ∉ allowed_types →
      transcribe_audio ct ac lc f p = .error ⟨400, unsupported_format_detail ct⟩) ∧
    (ct ∈ allowed_types → ac.length > max_file_size →
      transcribe_audio ct ac lc f p = .error ⟨400, file_too_large_detail⟩) ∧
    (ct ∈ allowed_types → ac.length = 0 →
      transcribe_audio ct ac lc f p = .error ⟨400, empty_file_detail⟩) ∧
    ((ct ∉ allowed_types ∨ ac.length = 0 ∨ ac.length > max_file_size) →
      transcribe_audio ct ac lc f p = transcribe_audio ct ac lc g q) := by
  have hz : ∀ (h0 : ac.length = 0), ¬ (ac.length > max_file_size) := by
    intro h0; rw [h0]; decide
  refine ⟨fun h => ?_, fun hct h => ?_, fun hct h0 => ?_, fun h => ?_⟩
  · simp only [transcribe_audio]
    rw [if_pos h]
  · simp only [transcribe_audio]
    rw [if_neg (not_not_intro hct), if_pos h]
  · simp only [transcribe_audio]
    rw [if_neg (not_not_intro hct), if_neg (hz h0), if_pos h0]
  · rcases h with h | h | h
    · simp only [transcribe_audio]
      rw [if_pos h, if_pos h]
    · by_cases hct : ct ∈ allowed_types
      · simp only [transcribe_audio]
        rw [if_neg (not_not_intro hct), if_neg (not_not_intro hct),
          if_neg (hz h), if_neg (hz h), if_pos h, if_pos h]
      · simp only [transcribe_audio]
        rw [if_pos hct, if_pos hct]
    · by_cases hct : ct ∈ allowed_types
      · simp only [transcribe_audio]
        rw [if_neg (not_not_intro hct), if_neg (not_not_intro hct),
          if_pos h, if_pos h]
      · simp only [transcribe_audio]
        rw [if_pos hct, if_pos hct]

/-- C2 witness: an unsupported content type and an empty payload each produce
their named 400 error, and the empty-payload result is identical under two
different providers and elapsed times. -/
theorem transcription_validation_fails_fast_witness :
    transcribe_audio "text/plain" [1] "en-US" (stt_const (.exc "boom")) 3 =
      .error ⟨400, unsupported_format_detail "text/plain"⟩ ∧
    transcribe_audio "audio/wav" [] "en-US" (stt_const (.exc "boom")) 3 =
      .error ⟨400, empty_file_detail⟩ ∧
    transcribe_audio "audio/wav" [] "en-US" (stt_const (.exc "boom")) 3 =
      transcribe_audio "audio/wav" [] "en-US" (stt_const (.exc "network down")) 9 :=
  ⟨(transcription_validation_fails_fast "text/plain" [1] "en-US"
      (stt_const (.exc "boom")) (stt_const (.exc "boom")) 3 3).1 (by decide),
   (transcription_validation_fails_fast "audio/wav" [] "en-US"
      (stt_const (.exc "boom")) (stt_const (.exc "boom")) 3 3).2.2.1 (by decide) rfl,
   (transcription_validation_fails_fast "audio/wav" [] "en-US"
      (stt_const (.exc "boom")) (stt_const (.exc "network down")) 3 9).2.2.2
     (Or.inr (Or.inl rfl))⟩

/-- C5: a nominally-successful (HTTP 200) provider transcription whose `text`
is empty or whitespace-only is turned into the 400 "no speech detected"
error, and every successful transcription result carries a non-empty
transcript. -/
theorem empty_transcript_is_no_speech (ct : String) (ac : List Nat)
    (lc : String) (f : String → STTOutcome) (p : Nat) :
    (∀ body text prob,
      ct ∈ allowed_types → ac.length ≤ max_file_size → ac.length ≠ 0 →
      f (eleven_lang lc) = STTOutcome.response 200 body text prob →
      py_strip (text.getD "") = "" →
      transcribe_audio ct ac lc f p = .error ⟨400, no_speech_detail⟩) ∧
    (∀ r, transcribe_audio ct ac lc f p = .ok r → r.transcript ≠ "") := by
  constructor
  · intro body text prob hct hsz hne hf hstrip
    have hmax : ¬ (ac.length > max_file_size) := by omega
    simp only [transcribe_audio, hf]
    rw [if_neg (not_not_intro hct), if_neg hmax, if_neg hne,
      if_neg (not_not_intro rfl), if_pos (Or.inr hstrip)]
  · intro r h
    simp only [transcribe_audio] at h
    repeat' split at h
    all_goals try exact Except.noConfusion h
    rename_i hcond
    injection h with h
    subst h
    exact fun hc => hcond (Or.inr hc)

/-- C5 witness: a whitespace-only 200 transcript yields the no-speech 400,
and a concrete successful run has a non-empty transcript. -/
theorem empty_transcript_is_no_speech_witness :
    transcribe_audio "audio/wav" [1] "en-US"
      (stt_const (.response 200 "" (some "  ") none)) 3 =
      .error ⟨400, no_speech_detail⟩ ∧
    ("hi" : String) ≠ "" :=
  ⟨(empty_transcript_is_no_speech "audio/wav" [1] "en-US"
      (stt_const (.response 200 "" (some "  ") none)) 3).1 "" (some "  ") none
      (by decide) (by decide) (by decide) rfl (by decide),
   (empty_transcript_is_no_speech "audio/wav" [1] "en-US"
      (stt_const (.response 200 "" (some " hi ") (some 1))) 3).2 ⟨"hi", 1, 3⟩
      (by decide)⟩

/-- C7: a language tag not present in the lookup table is mapped to the
default provider code "eng", and the transcription request then behaves
exactly as a request with the default "en-US" tag — it is never rejected for
the unrecognized locale. -/
theorem unmapped_locale_defaults_to_english (lc : String)
    (h : lang_map.lookup lc = none) :
    eleven_lang lc = "eng" ∧
    ∀ ct ac f p, transcribe_audio ct ac lc f p = transcribe_audio ct ac "en-US" f p := by
  have he : eleven_lang lc = "eng" := by rw [eleven_lang, h]; rfl
  refine ⟨he, fun ct ac f p => ?_⟩
  unfold transcribe_audio
  rw [he, show eleven_lang "en-US" = "eng" from by decide]

/-- C7 witness: the unmapped tag "xx-YY" degrades to "eng" and a concrete
request with it proceeds exactly like an "en-US" request. -/
theorem unmapped_locale_defaults_to_english_witness :
    eleven_lang "xx-YY" = "eng" ∧
    transcribe_audio "audio/wav" [1] "xx-YY" (stt_const (.exc "boom")) 3 =
      transcribe_audio "audio/wav" [1] "en-US" (stt_const (.exc "boom")) 3 :=
  ⟨(unmapped_locale_defaults_to_english "xx-YY" (by decide)).1,
   (unmapped_locale_defaults_to_english "xx-YY" (by decide)).2 "audio/wav" [1]
     (stt_const (.exc "boom")) 3⟩

/-- C6 counterexample: a summary request with `transformation_count = -1` is
accepted by the pydantic model (which imposes no value constraint) and is
processed to a normal success by the handler — it is not rejected as invalid
input. -/
theorem negative_count_is_processed :
    ai_summary_request_accepted ⟨"I am anxious", none, -1, none⟩ = true ∧
    generate_summary true ⟨"I am anxious", none, -1, none⟩
      (gemini_const (.ok "Well done.")) 5 =
      .ok ⟨"Well done.", "encouraging", 5⟩ := by
  refine ⟨rfl, ?_⟩
  decide

/-- C6 amended: a summary request with a negative `transformation_count` is
accepted and processed, not rejected; its transformation clause is omitted
and the request behaves exactly as if the count were 0. -/
theorem negative_count_accepted_as_zero (r : AISummaryRequest) (m : Bool)
    (g : String → GeminiOutcome) (p : Nat) (h : r.transformation_count < 0) :
    ai_summary_request_accepted r = true ∧
    transformations_made r = "" ∧
    generate_summary m r g p =
      generate_summary m ⟨r.original_text, r.reframed_text, 0, r.user_principles⟩ g p := by
  have ht : transformations_made r = "" := by
    unfold transformations_made
    rw [if_neg]
    rintro ⟨-, hpos⟩
    omega
  have ht0 : transformations_made ⟨r.original_text, r.reframed_text, 0, r.user_principles⟩ = "" := by
    unfold transformations_made
    rw [if_neg]
    rintro ⟨h0, -⟩
    exact h0 rfl
  refine ⟨rfl, ht, ?_⟩
  unfold generate_summary summary_prompt
  rw [ht, ht0]
  rfl

/-- C6 amended witness: a concrete request with count -2 is accepted, its
clause is empty, and it is processed exactly as with count 0. -/
theorem negative_count_accepted_as_zero_witness :
    ai_summary_request_accepted ⟨"t", some "r", -2, some ["honesty"]⟩ = true ∧
    transformations_made ⟨"t", some "r", -2, some ["honesty"]⟩ = "" ∧
    generate_summary true ⟨"t", some "r", -2, some ["honesty"]⟩
      (gemini_const (.ok "ok")) 4 =
      generate_summary true ⟨"t", some "r", 0, some ["honesty"]⟩
        (gemini_const (.ok "ok")) 4 :=
  negative_count_accepted_as_zero ⟨"t", some "r", -2, some ["honesty"]⟩ true
    (gemini_const (.ok "ok")) 4 (by decide)

/-- C8: for a summary request with `transformation_count = 0` and absent
(`none` or empty) principles, both optional clauses are empty and the built
prompt equals the clause-free prompt; on provider success the handler returns
the trimmed text with tone "encouraging" and a non-negative elapsed time. -/
theorem zero_count_prompt_omits_clauses (r : AISummaryRequest)
    (g : String → GeminiOutcome) (p : Nat)
    (h0 : r.transformation_count = 0)
    (hp : r.user_principles = none ∨ r.user_principles = some []) :
    transformations_made r = "" ∧
    principles_context r = "" ∧
    summary_prompt r = summary_prompt_no_optional_clauses r ∧
    (∀ s, g (summary_prompt r) = .ok s →
      generate_summary true r g p = .ok ⟨py_strip s, "encouraging", p⟩) ∧
    (∀ resp, generate_summary true r g p = .ok resp →
      resp.tone = "encouraging" ∧ 0 ≤ resp.processing_time_ms) := by
  have ht : transformations_made r = "" := by
    unfold transformations_made
    rw [if_neg]
    rintro ⟨hne, -⟩
    exact hne h0
  have hpc : principles_context r = "" := by
    rcases hp with hp | hp <;> simp [principles_context, hp]
  have hprompt : summary_prompt r = summary_prompt_no_optional_clauses r := by
    unfold summary_prompt summary_prompt_no_optional_clauses
    rw [ht, hpc]
    simp
  refine ⟨ht, hpc, hprompt, fun s hs => ?_, fun resp hresp => ?_⟩
  · unfold generate_summary
    rw [hs]
    rfl
  · unfold generate_summary at hresp
    split at hresp
    · exact Except.noConfusion hresp
    · split at hresp
      · injection hresp with hresp
        rw [← hresp]
        exact ⟨rfl, Nat.zero_le _⟩
      · exact Except.noConfusion hresp

/-- C8 witness: the spec scenario — original text "I am anxious", no
reframed text, zero transformations, no principles — produces the
clause-free prompt and, on provider success, the encouraging response. -/
theorem zero_count_prompt_omits_clauses_witness :
    summary_prompt ⟨"I am anxious", none, 0, none⟩ =
      summary_prompt_no_optional_clauses ⟨"I am anxious", none, 0, none⟩ ∧
    generate_summary true ⟨"I am anxious", none, 0, none⟩
      (gemini_const (.ok " You grew today. ")) 5 =
      .ok ⟨py_strip " You grew today. ", "encouraging", 5⟩ :=
  ⟨(zero_count_prompt_omits_clauses ⟨"I am anxious", none, 0, none⟩
      (gemini_const (.ok " You grew today. ")) 5 rfl (Or.inl rfl)).2.2.1,
   (zero_count_prompt_omits_clauses ⟨"I am anxious", none, 0, none⟩
      (gemini_const (.ok " You grew today. ")) 5 rfl (Or.inl rfl)).2.2.2.1
     " You grew today. " rfl⟩

/-- C9: every successful synthesis echoes the request's voice identifier. -/
theorem synthesis_echoes_voice_id (request : TTSRequest) (outcome : TTSOutcome)
    (p : Nat) (r : TTSResponse)
    (h : synthesize_text request outcome p = .ok r) :
    r.voice_id = request.voice_id := by
  unfold synthesize_text at h
  repeat' split at h
  all_goals try exact Except.noConfusion h
  injection h with h
  subst h
  rfl

/-- C9 witness: a concrete successful synthesis with voice "V1" returns a
result whose echoed voice identifier is "V1". -/
theorem synthesis_echoes_voice_id_witness :
    synthesize_text ⟨"hello", "V1"⟩ (.ok "QVVESU8=") 3 =
      .ok ⟨"QVVESU8=", 3, "V1"⟩ ∧
    (⟨"QVVESU8=", 3, "V1"⟩ : TTSResponse).voice_id = "V1" :=
  ⟨by decide,
   synthesis_echoes_voice_id ⟨"hello", "V1"⟩ (.ok "QVVESU8=") 3
     ⟨"QVVESU8=", 3, "V1"⟩ (by decide)⟩

end Archie
